import Mathlib

/-!
Shallow embedding of the `logone` logging facade (src/logone/logone.py).

The embedding models:
* severity levels as natural numbers (DEBUG = 10 … CRITICAL = 50, the
  standard library numeric levels the code inherits);
* the `LogOne` wrapper state: logger threshold, the console handlers
  installed by `coloredlogs.install` at construction, the optional
  `TimedRotatingFileHandler` and `LogglyHandler`, and the stdout/stderr
  redirection wrappers;
* `set_level`, `use_file`, `use_loggly`, `redirect_stderr`,
  `disable_logger`;
* record dispatch (which attached handlers consume an emitted record);
* `LogglyHandler.emit` including its in-place mutation of the shared
  record (`record.msg = json.dumps(msg)[1:-1]`, `record.exc_info = None`),
  the HTTP success test, and the `handleError` fallback;
* the `StdOutWrapper` / `StdErrWrapper` stream adapters.

Python's `assert x, msg` failures are modelled as `ConfigError` values in
an `Except` result; raising means no new state is produced, so the state
threaded by the caller is unchanged on failure.
-/

namespace LogOne

/-- Numeric severity levels, as in the standard logging module. -/
abbrev Level := Nat

def DEBUG : Level := 10
def INFO : Level := 20
def WARNING : Level := 30
def ERROR : Level := 40
def CRITICAL : Level := 50

/-- Characters removed by Python `str.strip()` (Unicode whitespace). -/
def isPySpace (c : Char) : Bool :=
  (9 ≤ c.toNat && c.toNat ≤ 13) || c.toNat = 32 ||
  (28 ≤ c.toNat && c.toNat ≤ 31) || c.toNat = 0x85 || c.toNat = 0xa0 ||
  c.toNat = 0x1680 || (0x2000 ≤ c.toNat && c.toNat ≤ 0x200a) ||
  c.toNat = 0x2028 || c.toNat = 0x2029 || c.toNat = 0x202f ||
  c.toNat = 0x205f || c.toNat = 0x3000

/-- Python `str.strip()`: drop leading and trailing whitespace. -/
def pyStrip (s : String) : String :=
  String.mk (((s.data.dropWhile isPySpace).reverse.dropWhile isPySpace).reverse)

/-- Truthiness of an optional string, as Python `if not x` tests it:
`None` and the empty string are falsy. -/
def pyTruthy : Option String → Bool
  | none => false
  | some s => !(s == "")

/-- Lower-case hexadecimal digit. -/
def hexDigit (n : Nat) : Char :=
  if n < 10 then Char.ofNat (48 + n) else Char.ofNat (87 + n)

/-- Four lower-case hex digits, as `json.dumps` emits in escapes. -/
def hex4 (n : Nat) : String :=
  String.mk [hexDigit (n / 4096 % 16), hexDigit (n / 256 % 16),
             hexDigit (n / 16 % 16), hexDigit (n % 16)]

/-- Escape one character the way `json.dumps` (default `ensure_ascii=True`)
escapes it inside a JSON string. -/
def jsonEscapeChar (c : Char) : String :=
  if c = '"' then "\\\""
  else if c = '\\' then "\\\\"
  else if c = '\n' then "\\n"
  else if c = '\r' then "\\r"
  else if c = '\t' then "\\t"
  else if c = '\x08' then "\\b"
  else if c = '\x0c' then "\\f"
  else if c.toNat < 0x20 then "\\u" ++ hex4 c.toNat
  else if c.toNat < 0x7f then String.mk [c]
  else if c.toNat ≤ 0xffff then "\\u" ++ hex4 c.toNat
  else
    "\\u" ++ hex4 (0xd800 + (c.toNat - 0x10000) / 0x400) ++
    "\\u" ++ hex4 (0xdc00 + (c.toNat - 0x10000) % 0x400)

/-- JSON string escaping of a whole string: `json.dumps(s)[1:-1]`
(the serialized string with its surrounding quotes dropped). -/
def jsonEscape (s : String) : String :=
  String.join (s.data.map jsonEscapeChar)

/-- A log record, with the fields the default format strings consume.
`excInfo` is the attached error/stack trace, modelled as the already
formatted traceback text (`''.join(traceback.format_exception(*ei))`);
`none` means no exception information is attached. -/
structure LogRecord where
  name : String
  process : Nat
  msecs : Nat
  levelname : String
  asctime : String
  filename : String
  programname : String
  module : String
  funcName : String
  lineno : Nat
  msg : String
  excInfo : Option String
deriving DecidableEq, Repr

/-- Zero-padded three digit field, as `%(msecs)03d` renders. -/
def pad3 (n : Nat) : String :=
  (if n < 10 then "00" else if n < 100 then "0" else "") ++ toString n

/-- `logging.Formatter.formatException` strips one trailing newline from
the joined traceback text before appending it. -/
def stripTrailingNewline (s : String) : String :=
  if s.endsWith "\n" then s.dropRight 1 else s

/-- `logging.Formatter.format`: the substituted format line, then the
formatted exception on a new line when `exc_info` is present. -/
def formatWithExc (base : String) (r : LogRecord) : String :=
  match r.excInfo with
  | none => base
  | some tb => base ++ "\n" ++ stripTrailingNewline tb

/-- Substitution of the default console format installed in `__init__`. -/
def consoleFormatBase (r : LogRecord) : String :=
  r.asctime ++ "." ++ pad3 r.msecs ++ " " ++ r.name ++ "[" ++
  toString r.process ++ "] " ++ r.programname ++ "/" ++ r.module ++ "/" ++
  r.funcName ++ "[" ++ toString r.lineno ++ "] " ++ r.levelname ++ " " ++ r.msg

/-- Full console rendering of a record (coloring is external). -/
def consoleFormat (r : LogRecord) : String :=
  formatWithExc (consoleFormatBase r) r

/-- Substitution of the default file format set in `use_file`. -/
def fileFormatBase (r : LogRecord) : String :=
  r.asctime ++ " " ++ r.name ++ "[" ++ toString r.process ++ "] " ++
  r.programname ++ "/" ++ r.module ++ "/" ++ r.funcName ++ "[" ++
  toString r.lineno ++ "] " ++ r.levelname ++ " " ++ r.msg

/-- Full file rendering of a record. -/
def fileFormat (r : LogRecord) : String :=
  formatWithExc (fileFormatBase r) r

/-- Everything of the default Loggly JSON format set in `use_loggly` that
precedes the message text. -/
def logglyFields (r : LogRecord) : String :=
  "\x7b\"name\":\"" ++ r.name ++ "\",\"process\":\"" ++ toString r.process ++
  "\",\"levelname\":\"" ++ r.levelname ++ "\",\"time\":\"" ++ r.asctime ++
  "\",\"filename\":\"" ++ r.filename ++ "\",\"programname\":\"" ++
  r.programname ++ "\",\"module\":\"" ++ r.module ++ "\",\"funcName\":\"" ++
  r.funcName ++ "\",\"lineno\":\"" ++ toString r.lineno ++ "\",\"message\":\""

/-- Substitution of the default Loggly JSON format string. -/
def logglyFormatBase (r : LogRecord) : String :=
  logglyFields r ++ r.msg ++ "\"\x7d"

/-- Full Loggly rendering of a record. -/
def logglyFormat (r : LogRecord) : String :=
  formatWithExc (logglyFormatBase r) r

/-- The kinds of handler the facade can attach. -/
inductive HandlerK
  | console
  | file
  | loggly
deriving DecidableEq, Repr

/-- An attached sink viewed by the dispatch loop: its kind and its
threshold (`handler.level`). -/
structure Sink where
  kind : HandlerK
  level : Level
deriving DecidableEq, Repr

/-- Configuration of the `TimedRotatingFileHandler` built by `use_file`. -/
structure FileHandlerConfig where
  fileName : String
  whenUnit : String
  interval : Nat
  backupCount : Nat
  encoding : String
  delay : Bool
  utc : Bool
  atTime : Option Nat
  fmt : String
  datefmt : Option String
  level : Level
deriving DecidableEq, Repr

/-- Configuration of the `LogglyHandler` built by `use_loggly`. -/
structure LogglyConfig where
  token : String
  tag : String
  fmt : String
  datefmt : Option String
  level : Level
deriving DecidableEq, Repr

/-- State of a `StdOutWrapper`: only its configured level. -/
structure StdOutState where
  level : Level
deriving DecidableEq, Repr

/-- State of a `StdErrWrapper`: its configured level and the contents of
its internal `StringIO` accumulation buffer. -/
structure StdErrState where
  level : Level
  buffer : String
deriving DecidableEq, Repr

/-- What a process stream variable (`sys.stdout` / `sys.stderr`, or the
saved `self.__stdout_stream` / `self.__stderr_stream`) points at: the
original stream saved at import time, or the logger-backed wrapper. -/
inductive StreamTarget
  | original
  | wrapped
deriving DecidableEq, Repr

/-- State of a `LogOne` instance (plus the `sys` stream globals). -/
structure LogOneState where
  name : String
  loggerLevel : Level
  disabled : Bool
  coloredlogsLevels : List Level
  fileHandler : Option FileHandlerConfig
  logglyHandler : Option LogglyConfig
  stdoutWrapper : Option StdOutState
  stderrWrapper : Option StdErrState
  stdoutStream : StreamTarget
  stderrStream : StreamTarget
  sysStdout : StreamTarget
  sysStderr : StreamTarget
deriving DecidableEq, Repr

/-- Python `assert` failures raised by the attach operations; the spec
calls both ConfigurationError. -/
inductive ConfigError
  | fileNameMissing
  | logglyTokenMissing
deriving DecidableEq, Repr

/-- `LogOne.set_level`: set every handler recorded in
`self.__coloredlogs_handlers` (the console handlers captured at
construction) and the logger itself to `level`. -/
def set_level (s : LogOneState) (level : Level) : LogOneState :=
  { s with coloredlogsLevels := s.coloredlogsLevels.map (fun _ => level),
           loggerLevel := level }

/-- `LogOne.disable_logger`: reset the `sys` streams (to the originals
when disabling, to the saved streams when re-enabling) and set the
logger's disabled flag. -/
def disable_logger (s : LogOneState) (disabled : Bool) : LogOneState :=
  if disabled then
    { s with sysStdout := .original, sysStderr := .original, disabled := true }
  else
    { s with sysStdout := s.stdoutStream, sysStderr := s.stderrStream,
             disabled := false }

/-- `LogOne.redirect_stderr`: when enabling, reuse the existing wrapper
(updating only its level) or build a fresh one, and point the saved
stream and `sys.stderr` at it; when disabling, point them back at the
original stream, leaving the wrapper (and its buffer) alone. -/
def redirect_stderr (s : LogOneState) (enabled : Bool) (log_level : Level) :
    LogOneState :=
  if enabled then
    match s.stderrWrapper with
    | some w =>
      { s with stderrWrapper := some { w with level := log_level },
               stderrStream := .wrapped, sysStderr := .wrapped }
    | none =>
      { s with stderrWrapper := some { level := log_level, buffer := "" },
               stderrStream := .wrapped, sysStderr := .wrapped }
  else
    { s with stderrStream := .original, sysStderr := .original }

/-- Default file format string of `use_file`. -/
def defaultFileFormat : String :=
  "%(asctime)s %(name)s[%(process)d] " ++
  "%(programname)s/%(module)s/%(funcName)s[%(lineno)d] " ++
  "%(levelname)s %(message)s"

/-- Default Loggly JSON format string of `use_loggly`. -/
def defaultLogglyFormat : String :=
  "\x7b\"name\":\"%(name)s\",\"process\":\"%(process)d\"," ++
  "\"levelname\":\"%(levelname)s\",\"time\":\"%(asctime)s\"," ++
  "\"filename\":\"%(filename)s\",\"programname\":\"%(programname)s\"," ++
  "\"module\":\"%(module)s\",\"funcName\":\"%(funcName)s\"," ++
  "\"lineno\":\"%(lineno)d\",\"message\":\"%(message)s\"\x7d"

/-- `LogOne.use_file`: attach (or detach) the timed-rotating file
handler. Attaching while one is attached is a no-op; attaching with a
falsy `file_name` fails the `assert` before any handler is created. -/
def use_file (s : LogOneState) (enabled : Bool) (file_name : Option String)
    (level : Level) (whenUnit : String) (interval : Nat) (backup_count : Nat)
    (delay : Bool) (utc : Bool) (at_time : Option Nat)
    (log_format : Option String) (date_format : Option String) :
    Except ConfigError LogOneState :=
  if enabled then
    match s.fileHandler with
    | some _ => .ok s
    | none =>
      if pyTruthy file_name then
        let fmt := if pyTruthy log_format then log_format.getD ""
                   else defaultFileFormat
        let cfg : FileHandlerConfig :=
          { fileName := file_name.getD "", whenUnit := whenUnit,
            interval := interval, backupCount := backup_count,
            encoding := "UTF-8", delay := delay, utc := utc,
            atTime := at_time, fmt := fmt, datefmt := date_format,
            level := level }
        .ok { s with fileHandler := some cfg }
      else .error .fileNameMissing
  else
    match s.fileHandler with
    | some _ => .ok { s with fileHandler := none }
    | none => .ok s

/-- `LogOne.use_loggly`: attach (or detach) the Loggly handler. Attaching
while one is attached is a no-op; attaching with a falsy token fails the
`assert` before any handler is created; a falsy tag defaults to the
logger's name. -/
def use_loggly (s : LogOneState) (enabled : Bool)
    (loggly_token : Option String) (loggly_tag : Option String)
    (level : Level) (log_format : Option String)
    (date_format : Option String) : Except ConfigError LogOneState :=
  if enabled then
    match s.logglyHandler with
    | some _ => .ok s
    | none =>
      if pyTruthy loggly_token then
        let tag := if pyTruthy loggly_tag then loggly_tag.getD "" else s.name
        let fmt := if pyTruthy log_format then log_format.getD ""
                   else defaultLogglyFormat
        let cfg : LogglyConfig :=
          { token := loggly_token.getD "", tag := tag, fmt := fmt,
            datefmt := date_format, level := level }
        .ok { s with logglyHandler := some cfg }
      else .error .logglyTokenMissing
  else
    match s.logglyHandler with
    | some _ => .ok { s with logglyHandler := none }
    | none => .ok s

/-- The sinks attached to the logger, in `logger.handlers` order: the
console handlers installed at construction, then the file handler and
the Loggly handler when attached. -/
def attachedSinks (s : LogOneState) : List Sink :=
  s.coloredlogsLevels.map (fun l => { kind := HandlerK.console, level := l })
    ++ (s.fileHandler.map fun c =>
         ({ kind := HandlerK.file, level := c.level } : Sink)).toList
    ++ (s.logglyHandler.map fun c =>
         ({ kind := HandlerK.loggly, level := c.level } : Sink)).toList

/-- Dispatch of a record logged at level `L`: the logging substrate
creates and hands the record over only when the logger is enabled and
`L` reaches the logger threshold (`Logger.isEnabledFor` /
`Logger.handle`); `Logger.callHandlers` then delivers it to every
handler whose own level does not exceed `L`. Returns the sinks the
record is delivered to. -/
def emitRecord (s : LogOneState) (L : Level) : List Sink :=
  if s.disabled = false ∧ s.loggerLevel ≤ L then
    (attachedSinks s).filter (fun h => decide (h.level ≤ L))
  else []

/-- The exact success body `LogglyHandler.emit` requires:
`b'\x7b"response" : "ok"\x7d'`. -/
def okBody : String := "\x7b\"response\" : \"ok\"\x7d"

/-- Outcome of `requests.post` as `LogglyHandler.emit` observes it: an
HTTP response (status code and body), or a `RequestException` — which
includes connection failures and timeouts. -/
inductive PostResult
  | resp (status : Nat) (content : String)
  | transportError
deriving DecidableEq, Repr

/-- Result of `LogglyHandler.emit`. `record` is the (shared, mutable)
record object after emit returns; `body` is the formatted text POSTed;
`errorReported` is whether `handleError` was invoked (the local
error-reporting path). No constructor models an escaping exception:
`RequestException` and `AssertionError` are both caught. -/
structure EmitOutcome where
  record : LogRecord
  body : String
  errorReported : Bool
deriving DecidableEq, Repr

/-- The in-place mutation at the top of `LogglyHandler.emit`: when
`record.exc_info` is set, replace `record.msg` with the JSON-escaped
concatenation of the message, a newline and the formatted traceback
(`json.dumps(msg)[1:-1]`), and clear `record.exc_info`. -/
def logglyPreprocess (r : LogRecord) : LogRecord :=
  match r.excInfo with
  | some tb => { r with msg := jsonEscape (r.msg ++ "\n" ++ tb), excInfo := none }
  | none => r

/-- The success test of `LogglyHandler.emit`: both asserts pass exactly
when the status code is 200 (`requests.codes.ok`) and the body is the
literal `okBody`. -/
def logglySuccess : PostResult → Bool
  | .resp status content => status == 200 && content == okBody
  | .transportError => false

/-- `LogglyHandler.emit`, given the network's behaviour for this POST. -/
def logglyEmit (r : LogRecord) (net : PostResult) : EmitOutcome :=
  let rr := logglyPreprocess r
  { record := rr, body := logglyFormat rr,
    errorReported := !logglySuccess net }

/-- A record handed to the logger by a stream adapter. -/
structure Emitted where
  level : Level
  msg : String
deriving DecidableEq, Repr

/-- `StdOutWrapper.write`: strip the chunk; when what remains is
non-empty, log it immediately at the configured level; the wrapper
state never changes. Returns the emitted records. -/
def stdoutWrite (s : StdOutState) (buffer : String) : List Emitted :=
  let b := pyStrip buffer
  if b.length > 0 then [{ level := s.level, msg := b }] else []

/-- `StdOutWrapper.flush`: a no-op. -/
def stdoutFlush (_ : StdOutState) : List Emitted := []

/-- `StdErrWrapper.write`: append the raw chunk to the internal buffer;
nothing is logged. -/
def stderrWrite (s : StdErrState) (buffer : String) : StdErrState × List Emitted :=
  ({ s with buffer := s.buffer ++ buffer }, [])

/-- `StdErrWrapper.flush`: when the buffer position is past the start
(the buffer holds text), log its whole contents as one record at the
configured level, then truncate and rewind the buffer. -/
def stderrFlush (s : StdErrState) : StdErrState × List Emitted :=
  if s.buffer.length > 0 then
    ({ s with buffer := "" }, [{ level := s.level, msg := s.buffer }])
  else (s, [])

/-- A sequence of `StdErrWrapper.write` calls, collecting emissions. -/
def stderrWriteAll : StdErrState → List String → StdErrState × List Emitted
  | s, [] => (s, [])
  | s, c :: cs =>
    let p := stderrWrite s c
    let q := stderrWriteAll p.1 cs
    (q.1, p.2 ++ q.2)

/-- Concatenation of a list of chunks in order. -/
def concatChunks : List String → String
  | [] => ""
  | c :: cs => c ++ concatChunks cs

/-- One handler consuming the (shared) record: the text it produces and
the record object as the next handler will see it. Console and file
handlers format without mutating; the Loggly handler first performs its
in-place preprocessing, so later handlers see the mutated record. -/
def handlerEmit : HandlerK → LogRecord → String × LogRecord
  | .console, r => (consoleFormat r, r)
  | .file, r => (fileFormat r, r)
  | .loggly, r =>
    let rr := logglyPreprocess r
    (logglyFormat rr, rr)

/-- `Logger.callHandlers` hands the same record object to each handler
in order; each handler's output is paired with its kind, and the record
state is threaded from one handler to the next. -/
def dispatch : List HandlerK → LogRecord → List (HandlerK × String)
  | [], _ => []
  | h :: t, r =>
    let p := handlerEmit h r
    (h, p.1) :: dispatch t p.2

/-- Helper: a string has positive length exactly when it is non-empty. -/
theorem string_length_pos_iff (s : String) : 0 < s.length ↔ s ≠ "" := by
  cases s with
  | mk l =>
    cases l with
    | nil => simp [String.length]
    | cons a t => simp [String.length, String.ext_iff]

/-- A state with a console handler (threshold WARNING, as installed at
construction), used by concrete witnesses. -/
def baseState : LogOneState :=
  { name := "example", loggerLevel := WARNING, disabled := false,
    coloredlogsLevels := [WARNING], fileHandler := none,
    logglyHandler := none, stdoutWrapper := none, stderrWrapper := none,
    stdoutStream := .original, stderrStream := .original,
    sysStdout := .original, sysStderr := .original }

/-- A concrete file handler configuration, used by witnesses. -/
def fileCfgA : FileHandlerConfig :=
  { fileName := "logs/example.log", whenUnit := "d", interval := 1,
    backupCount := 30, encoding := "UTF-8", delay := false, utc := false,
    atTime := none, fmt := defaultFileFormat, datefmt := none,
    level := DEBUG }

/-- A concrete Loggly handler configuration, used by witnesses. -/
def logglyCfgA : LogglyConfig :=
  { token := "tok", tag := "example", fmt := defaultLogglyFormat,
    datefmt := none, level := DEBUG }

/-- `baseState` with both optional sinks attached, used by witnesses. -/
def attachedState : LogOneState :=
  { baseState with fileHandler := some fileCfgA,
                   logglyHandler := some logglyCfgA }

/-- C1: for every severity level `L` and every attached sink with
threshold `T` — console, file, or remote alike — a record emitted at
level `L` (the logger is enabled and `L` reaches the logger threshold,
which is what it takes for the logging substrate to create and dispatch
a record at all) is delivered to that sink if and only if `L ≥ T`. -/
theorem delivered_iff_level_ge_threshold (s : LogOneState) (L : Level)
    (k : Sink) (hdis : s.disabled = false) (hlvl : s.loggerLevel ≤ L)
    (hk : k ∈ attachedSinks s) :
    k ∈ emitRecord s L ↔ k.level ≤ L := by
  simp [emitRecord, hdis, hlvl, List.mem_filter, hk]

/-- Witness for C1: in a state with console, file and remote sinks
attached, a record at ERROR is delivered to the file sink, whose DEBUG
threshold it meets. -/
theorem delivered_iff_level_ge_threshold_witness :
    attachedState.disabled = false ∧ attachedState.loggerLevel ≤ ERROR ∧
    ({ kind := HandlerK.file, level := DEBUG } : Sink) ∈
      attachedSinks attachedState ∧
    (({ kind := HandlerK.file, level := DEBUG } : Sink) ∈
      emitRecord attachedState ERROR ↔ DEBUG ≤ ERROR) :=
  ⟨rfl, by decide, by decide,
   delivered_iff_level_ge_threshold attachedState ERROR
     { kind := HandlerK.file, level := DEBUG } rfl (by decide) (by decide)⟩

/-- C2: `set_level v` sets the logger's own threshold and the threshold
of every console handler installed at construction to `v`, and leaves
the attached file and Loggly handler configurations — their thresholds
included — unchanged. -/
theorem set_level_updates_console_only (s : LogOneState) (v : Level) :
    (set_level s v).loggerLevel = v ∧
    (set_level s v).coloredlogsLevels =
      List.replicate s.coloredlogsLevels.length v ∧
    (set_level s v).fileHandler = s.fileHandler ∧
    (set_level s v).logglyHandler = s.logglyHandler := by
  refine ⟨rfl, ?_, rfl, rfl⟩
  simp [set_level, List.map_const']

/-- C3: for both optional sinks, attaching with enabled=true while a
sink of that kind is attached returns the state unchanged (existing
configuration kept), and detaching with enabled=false while none is
attached returns the state unchanged and raises no error. -/
theorem use_sink_attach_detach_noop (s t : LogOneState)
    (cf : FileHandlerConfig) (cl : LogglyConfig)
    (hsf : s.fileHandler = some cf) (hsl : s.logglyHandler = some cl)
    (htf : t.fileHandler = none) (htl : t.logglyHandler = none)
    (fn tok tag lf df : Option String) (lvl : Level) (wu : String)
    (iv bc : Nat) (dl ut : Bool) (atT : Option Nat) :
    use_file s true fn lvl wu iv bc dl ut atT lf df = .ok s ∧
    use_loggly s true tok tag lvl lf df = .ok s ∧
    use_file t false fn lvl wu iv bc dl ut atT lf df = .ok t ∧
    use_loggly t false tok tag lvl lf df = .ok t := by
  refine ⟨?_, ?_, ?_, ?_⟩ <;> simp [use_file, use_loggly, hsf, hsl, htf, htl]

/-- Witness for C3 at concrete states: a second attach with different
rotation parameters leaves the attached state intact, and detach on the
bare state is an error-free no-op. -/
theorem use_sink_attach_detach_noop_witness :
    attachedState.fileHandler = some fileCfgA ∧
    attachedState.logglyHandler = some logglyCfgA ∧
    baseState.fileHandler = none ∧ baseState.logglyHandler = none ∧
    use_file attachedState true (some "other.log") INFO "h" 2 5 true true
      none none none = .ok attachedState ∧
    use_loggly attachedState true (some "tok2") none INFO none none =
      .ok attachedState ∧
    use_file baseState false (some "other.log") INFO "h" 2 5 true true
      none none none = .ok baseState ∧
    use_loggly baseState false (some "tok2") none INFO none none =
      .ok baseState :=
  ⟨rfl, rfl, rfl, rfl,
   (use_sink_attach_detach_noop attachedState baseState fileCfgA logglyCfgA
     rfl rfl rfl rfl (some "other.log") (some "tok2") none none none INFO
     "h" 2 5 true true none).1,
   (use_sink_attach_detach_noop attachedState baseState fileCfgA logglyCfgA
     rfl rfl rfl rfl (some "other.log") (some "tok2") none none none INFO
     "h" 2 5 true true none).2.1,
   (use_sink_attach_detach_noop attachedState baseState fileCfgA logglyCfgA
     rfl rfl rfl rfl (some "other.log") (some "tok2") none none none INFO
     "h" 2 5 true true none).2.2.1,
   (use_sink_attach_detach_noop attachedState baseState fileCfgA logglyCfgA
     rfl rfl rfl rfl (some "other.log") (some "tok2") none none none INFO
     "h" 2 5 true true none).2.2.2⟩

/-- C4: with no sink of that kind attached, attaching the file sink with
a falsy (missing or empty) file path, or the Loggly sink with a falsy
token, fails with a ConfigurationError (the Python assert) before any
handler is created; the error result carries no new state, so the
caller's sink set stays the unchanged `s`. -/
theorem attach_missing_config_fails (s : LogOneState)
    (hf : s.fileHandler = none) (hl : s.logglyHandler = none)
    (fn tok tag lf df : Option String)
    (hfn : pyTruthy fn = false) (htok : pyTruthy tok = false)
    (lvl : Level) (wu : String) (iv bc : Nat) (dl ut : Bool)
    (atT : Option Nat) :
    use_file s true fn lvl wu iv bc dl ut atT lf df =
      .error .fileNameMissing ∧
    use_loggly s true tok tag lvl lf df = .error .logglyTokenMissing := by
  constructor <;> simp [use_file, use_loggly, hf, hl, hfn, htok]

/-- Witness for C4: an empty file path and a missing token are rejected
at attach time on the bare state. -/
theorem attach_missing_config_fails_witness :
    baseState.fileHandler = none ∧ baseState.logglyHandler = none ∧
    pyTruthy (some "") = false ∧ pyTruthy none = false ∧
    use_file baseState true (some "") WARNING "d" 1 30 false false none
      none none = .error .fileNameMissing ∧
    use_loggly baseState true none none WARNING none none =
      .error .logglyTokenMissing :=
  ⟨rfl, rfl, rfl, rfl,
   (attach_missing_config_fails baseState rfl rfl (some "") none none none
     none rfl rfl WARNING "d" 1 30 false false none).1,
   (attach_missing_config_fails baseState rfl rfl (some "") none none none
     none rfl rfl WARNING "d" 1 30 false false none).2⟩

/-- C5: `LogglyHandler.emit` treats exactly the outcome status 200 with
body `okBody` as success; every other status, every other body, and
every transport failure or timeout triggers `handleError` — the local
error-reporting path — and, `logglyEmit` being total, nothing is raised
to the emitting caller. -/
theorem loggly_success_iff (r : LogRecord) (net : PostResult) :
    (logglyEmit r net).errorReported = false ↔
      net = PostResult.resp 200 okBody := by
  cases net with
  | resp st c => simp [logglyEmit, logglySuccess]
  | transportError => simp [logglyEmit, logglySuccess]

/-- Helper: the Loggly preprocessing touches only the message and the
exception field, so the other formatted fields are unchanged. -/
theorem logglyFields_preprocess (r : LogRecord) :
    logglyFields (logglyPreprocess r) = logglyFields r := by
  cases h : r.excInfo <;> simp [logglyPreprocess, h, logglyFields]

/-- C6: for a record carrying an attached error/stack trace,
`LogglyHandler.emit` clears the structured error field, replaces the
message with the JSON-escaped flattening (message, newline, formatted
traceback), and the POSTed body is the JSON line whose message field is
exactly that flattened text, with no exception block appended by the
formatter. -/
theorem loggly_emit_flattens_trace (r : LogRecord) (tb : String)
    (net : PostResult) (h : r.excInfo = some tb) :
    (logglyEmit r net).record.excInfo = none ∧
    (logglyEmit r net).record.msg = jsonEscape (r.msg ++ "\n" ++ tb) ∧
    (logglyEmit r net).body =
      logglyFields r ++ jsonEscape (r.msg ++ "\n" ++ tb) ++ "\"\x7d" := by
  have hf : logglyFields
      { r with msg := jsonEscape (r.msg ++ "\n" ++ tb), excInfo := none } =
      logglyFields r := by
    simp [logglyFields]
  refine ⟨?_, ?_, ?_⟩
  · simp [logglyEmit, logglyPreprocess, h]
  · simp [logglyEmit, logglyPreprocess, h]
  · simp [logglyEmit, logglyPreprocess, h, logglyFormat, formatWithExc,
          logglyFormatBase]
    rw [hf]

/-- A concrete record carrying a formatted traceback, for witnesses. -/
def rc6 : LogRecord :=
  { name := "n", process := 1, msecs := 0, levelname := "ERROR",
    asctime := "t", filename := "f", programname := "p", module := "m",
    funcName := "g", lineno := 3, msg := "boom", excInfo := some "T\n" }

/-- Witness for C6 at a concrete record with an attached trace. -/
theorem loggly_emit_flattens_trace_witness :
    rc6.excInfo = some "T\n" ∧
    (logglyEmit rc6 PostResult.transportError).record.excInfo = none ∧
    (logglyEmit rc6 PostResult.transportError).record.msg =
      jsonEscape (rc6.msg ++ "\n" ++ "T\n") ∧
    (logglyEmit rc6 PostResult.transportError).body =
      logglyFields rc6 ++ jsonEscape (rc6.msg ++ "\n" ++ "T\n") ++
        "\"\x7d" :=
  ⟨rfl,
   (loggly_emit_flattens_trace rc6 "T\n" PostResult.transportError rfl).1,
   (loggly_emit_flattens_trace rc6 "T\n" PostResult.transportError rfl).2.1,
   (loggly_emit_flattens_trace rc6 "T\n" PostResult.transportError rfl).2.2⟩

/-- C7: each chunk written to the stdout adapter is stripped of leading
and trailing whitespace; a non-empty remainder is emitted immediately as
exactly one record with that remainder as message at the configured
level; a chunk that strips to nothing emits no record; flush is a
no-op. -/
theorem stdout_write_strip_emit (s : StdOutState) (buffer : String) :
    (pyStrip buffer ≠ "" →
      stdoutWrite s buffer = [{ level := s.level, msg := pyStrip buffer }]) ∧
    (pyStrip buffer = "" → stdoutWrite s buffer = []) ∧
    stdoutFlush s = [] := by
  refine ⟨fun h => ?_, fun h => ?_, rfl⟩
  · simp [stdoutWrite, (string_length_pos_iff _).2 h]
  · simp [stdoutWrite, h, String.length]

/-- Witness for C7: the spec's two concrete chunks. -/
theorem stdout_write_strip_emit_witness :
    pyStrip "  hello  \n" ≠ "" ∧
    stdoutWrite { level := INFO } "  hello  \n" =
      [{ level := INFO, msg := "hello" }] ∧
    pyStrip "   " = "" ∧
    stdoutWrite { level := INFO } "   " = [] ∧
    stdoutFlush { level := INFO } = [] := by
  have h1 := (stdout_write_strip_emit { level := INFO } "  hello  \n").1
    (by decide)
  have e : pyStrip "  hello  \n" = "hello" := by decide
  rw [e] at h1
  exact ⟨by decide, h1, by decide,
         (stdout_write_strip_emit { level := INFO } "   ").2.1 (by decide),
         (stdout_write_strip_emit { level := INFO } "   ").2.2⟩

/-- Helper: flushing a non-empty buffer emits it as one record and
clears it. -/
theorem stderrFlush_nonempty (lv : Level) (b : String) (hb : b ≠ "") :
    stderrFlush ⟨lv, b⟩ = (⟨lv, ""⟩, [⟨lv, b⟩]) := by
  simp [stderrFlush, (string_length_pos_iff b).2 hb]

/-- Helper: a sequence of stderr writes appends the concatenation of the
chunks to the buffer and emits nothing. -/
theorem stderrWriteAll_spec (s : StdErrState) (chunks : List String) :
    stderrWriteAll s chunks =
      ({ s with buffer := s.buffer ++ concatChunks chunks }, []) := by
  induction chunks generalizing s with
  | nil => simp [stderrWriteAll, concatChunks]
  | cons c cs ih =>
    simp [stderrWriteAll, stderrWrite, concatChunks, ih,
          String.append_assoc]

/-- C8: starting from an empty buffer (the state just after a flush),
writes emit nothing and accumulate the raw chunks in order; a flush with
a non-empty buffer emits exactly one record whose message is the
concatenation of the chunks written since, leaving the buffer empty; a
second flush with no intervening writes emits nothing. -/
theorem stderr_buffer_and_flush (lvl : Level) (chunks : List String) :
    (stderrWriteAll ⟨lvl, ""⟩ chunks).2 = [] ∧
    (stderrWriteAll ⟨lvl, ""⟩ chunks).1 = ⟨lvl, concatChunks chunks⟩ ∧
    (concatChunks chunks ≠ "" →
      stderrFlush (stderrWriteAll ⟨lvl, ""⟩ chunks).1 =
        (⟨lvl, ""⟩, [⟨lvl, concatChunks chunks⟩])) ∧
    (stderrFlush (stderrFlush (stderrWriteAll ⟨lvl, ""⟩ chunks).1).1).2 =
      [] := by
  have hw := stderrWriteAll_spec ⟨lvl, ""⟩ chunks
  have hb : (stderrWriteAll ⟨lvl, ""⟩ chunks).1 =
      ⟨lvl, concatChunks chunks⟩ := by
    rw [hw]
    rfl
  have hflush : concatChunks chunks ≠ "" →
      stderrFlush ⟨lvl, concatChunks chunks⟩ =
        (⟨lvl, ""⟩, [⟨lvl, concatChunks chunks⟩]) := by
    intro h
    simp [stderrFlush, (string_length_pos_iff _).2 h]
  refine ⟨by rw [hw], hb, fun h => ?_, ?_⟩
  · rw [hb]
    exact hflush h
  · rw [hb]
    by_cases h : concatChunks chunks = ""
    · rw [h]
      rfl
    · rw [hflush h]
      rfl

/-- Witness for C8: the spec's two chunks, flushed twice. -/
theorem stderr_buffer_and_flush_witness :
    concatChunks ["line1\n", "line2\n"] ≠ "" ∧
    (stderrWriteAll ⟨ERROR, ""⟩ ["line1\n", "line2\n"]).2 = [] ∧
    stderrFlush (stderrWriteAll ⟨ERROR, ""⟩ ["line1\n", "line2\n"]).1 =
      (⟨ERROR, ""⟩, [⟨ERROR, "line1\nline2\n"⟩]) ∧
    (stderrFlush
      (stderrFlush
        (stderrWriteAll ⟨ERROR, ""⟩ ["line1\n", "line2\n"]).1).1).2 =
      [] := by
  have h := stderr_buffer_and_flush ERROR ["line1\n", "line2\n"]
  have e : concatChunks ["line1\n", "line2\n"] = "line1\nline2\n" := by
    decide
  have h3 := h.2.2.1 (by decide)
  rw [e] at h3
  exact ⟨by decide, h.1, h3, h.2.2.2⟩

/-- C9 as stated fails on the code: `LogglyHandler.emit` mutates the
shared record in place (it escapes the flattened message into
`record.msg` and clears `record.exc_info`), so what another sink
receives depends on whether the Loggly sink ran first. At the concrete
record `rc6` the file sink's output when dispatched before the Loggly
sink differs from its output when dispatched after it. -/
theorem dispatch_order_dependent_cex :
    ((dispatch [HandlerK.file, HandlerK.loggly] rc6).getD 0
       (HandlerK.file, "")).2 ≠
    ((dispatch [HandlerK.loggly, HandlerK.file] rc6).getD 1
       (HandlerK.file, "")).2 := by decide

/-- C9 amended: dispatch is order-independent for every record that
carries no attached error/stack trace — each sink's output is then a
function of its own kind and the original record only, independent of
its position in the dispatch order — but not in general, because the
Loggly sink mutates the shared record when `exc_info` is present. -/
theorem dispatch_order_independent_no_exc (r : LogRecord)
    (h : r.excInfo = none) (hs : List HandlerK) :
    dispatch hs r = hs.map (fun k => (k, (handlerEmit k r).1)) := by
  have hpre : logglyPreprocess r = r := by simp [logglyPreprocess, h]
  induction hs with
  | nil => rfl
  | cons k t ih =>
    cases k <;> simp [dispatch, handlerEmit, hpre, ih]

/-- Witness for the amended C9 at a concrete trace-free record. -/
theorem dispatch_order_independent_no_exc_witness :
    ({ rc6 with excInfo := none } : LogRecord).excInfo = none ∧
    dispatch [HandlerK.loggly, HandlerK.file]
        { rc6 with excInfo := none } =
      [HandlerK.loggly, HandlerK.file].map
        (fun k => (k, (handlerEmit k { rc6 with excInfo := none }).1)) :=
  ⟨rfl, dispatch_order_independent_no_exc { rc6 with excInfo := none } rfl
    [HandlerK.loggly, HandlerK.file]⟩

/-- C10: turning stderr redirection off and disabling/re-enabling the
logger neither flushes nor clears the error adapter's buffer and keeps
the adapter installed; re-enabling redirection reuses that adapter,
updating only its level, so content buffered before disabling is part of
the one record the next flush emits. -/
theorem stderr_wrapper_survives_disable (s : LogOneState)
    (w : StdErrState) (hw : s.stderrWrapper = some w) (lvl lvlR : Level)
    (c : String) (hnb : w.buffer ++ c ≠ "") :
    (redirect_stderr s false lvl).stderrWrapper = some w ∧
    (disable_logger (redirect_stderr s false lvl) true).stderrWrapper =
      some w ∧
    (redirect_stderr
        (disable_logger
          (disable_logger (redirect_stderr s false lvl) true) false)
        true lvlR).stderrWrapper = some { w with level := lvlR } ∧
    stderrFlush (stderrWrite { w with level := lvlR } c).1 =
      (⟨lvlR, ""⟩, [⟨lvlR, w.buffer ++ c⟩]) := by
  refine ⟨?_, ?_, ?_, ?_⟩
  · simp [redirect_stderr, hw]
  · simp [redirect_stderr, disable_logger, hw]
  · simp [redirect_stderr, disable_logger, hw]
  · exact stderrFlush_nonempty lvlR (w.buffer ++ c) hnb

/-- The error adapter with buffered content, for the C10 witness. -/
def stderrStateA : StdErrState := { level := ERROR, buffer := "before\n" }

/-- A state with stderr redirection active, for the C10 witness. -/
def redirState : LogOneState :=
  { baseState with stderrWrapper := some stderrStateA,
                   stderrStream := .wrapped, sysStderr := .wrapped }

/-- Witness for C10: content buffered before disabling redirection and
the logger is still emitted, together with content written afterwards,
by the flush following re-enablement. -/
theorem stderr_wrapper_survives_disable_witness :
    redirState.stderrWrapper = some stderrStateA ∧
    stderrStateA.buffer ++ "after" ≠ "" ∧
    (redirect_stderr redirState false ERROR).stderrWrapper =
      some stderrStateA ∧
    (disable_logger (redirect_stderr redirState false ERROR)
        true).stderrWrapper = some stderrStateA ∧
    (redirect_stderr
        (disable_logger
          (disable_logger (redirect_stderr redirState false ERROR) true)
          false)
        true CRITICAL).stderrWrapper =
      some { stderrStateA with level := CRITICAL } ∧
    stderrFlush
        (stderrWrite { stderrStateA with level := CRITICAL } "after").1 =
      (⟨CRITICAL, ""⟩, [⟨CRITICAL, stderrStateA.buffer ++ "after"⟩]) := by
  have h := stderr_wrapper_survives_disable redirState stderrStateA rfl
    ERROR CRITICAL "after" (by decide)
  exact ⟨rfl, by decide, h.1, h.2.1, h.2.2.1, h.2.2.2⟩

end LogOne
